import Mathlib

/-!
Verification of `src/hello_world.py`.

The program defines a pure greeting function and an entry point that prints
three greetings.  We embed the program shallowly:

* `greet` mirrors `def greet(name="World"): return f"Hello, {name}!"`,
  including the default argument.
* Standard output is modelled as an explicit state, the list of lines printed
  so far; `print_line` appends one line, and `main_run` is the state-passing
  translation of `main`'s three `print(greet(...))` statements.
* `greet_call` is the effectful view of one `greet` call: the body of `greet`
  touches no external state, so the call returns its value and leaves the
  output state untouched.
-/

/-- `def greet(name="World"): return f"Hello, {name}!"`
(src/hello_world.py, lines 6-8).  The f-string `f"Hello, {name}!"` is the
concatenation of the literal prefix, the argument, and the literal suffix. -/
def greet (name : String := "World") : String :=
  "Hello, " ++ name ++ "!"

/-- Standard output as explicit state: `print s` appends the line `s` to the
lines already written. -/
def print_line (st : List String) (s : String) : List String :=
  st ++ [s]

/-- State-passing translation of `main` (src/hello_world.py, lines 10-14):
`print(greet())`, `print(greet("Claude"))`, `print(greet("GitHub Actions"))`,
executed in order on the output state. -/
def main_run (st : List String) : List String :=
  print_line (print_line (print_line st greet) (greet "Claude")) (greet "GitHub Actions")

/-- The lines on standard output after running `main` from an empty output. -/
def main_output : List String :=
  main_run []

/-- Effectful view of one call to `greet`: the body of `greet`
(src/hello_world.py, lines 6-8) reads and writes no external state, so a call
returns the value of `greet name` and passes the output state through. -/
def greet_call (name : String) (st : List String) : String × List String :=
  (greet name, st)

/-- The character list underlying `greet n`: the seven characters of
`"Hello, "`, then the characters of `n`, then `'!'`. -/
theorem greet_data (n : String) :
    (greet n).data = 'H' :: 'e' :: 'l' :: 'l' :: 'o' :: ',' :: ' ' :: (n.data ++ ['!']) := by
  cases n
  rfl

/-- C1: for every string input `n`, `greet(n)` returns exactly the
concatenation `"Hello, " + n + "!"`. -/
theorem greet_eq_concat (n : String) : greet n = "Hello, " ++ n ++ "!" :=
  rfl

/-- C2: `main()` writes exactly three lines to standard output, each the
result of one `greet` call (no argument, `"Claude"`, `"GitHub Actions"`), in
call order, each its own line, and nothing else: the output is literally
`["Hello, World!", "Hello, Claude!", "Hello, GitHub Actions!"]`. -/
theorem main_output_exact :
    main_output = [greet, greet "Claude", greet "GitHub Actions"] ∧
    main_output = ["Hello, World!", "Hello, Claude!", "Hello, GitHub Actions!"] ∧
    main_output.length = 3 :=
  ⟨rfl, rfl, rfl⟩

/-- C3: `greet` with no argument equals `greet "World"` — the default value of
the optional parameter is the literal `"World"` — and both equal
`"Hello, World!"`. -/
theorem greet_default :
    (greet : String) = greet "World" ∧ greet "World" = "Hello, World!" :=
  ⟨rfl, rfl⟩

/-- C4: `greet` is pure and deterministic: a call started from any two output
states (any two runs) returns the same value, and the call leaves the output
state it was started from unchanged. -/
theorem greet_pure (n : String) (st₁ st₂ : List String) :
    (greet_call n st₁).1 = (greet_call n st₂).1 ∧ (greet_call n st₁).2 = st₁ :=
  ⟨rfl, rfl⟩

/-- C5: `greet ""` returns `"Hello, !"`; the empty string is accepted like any
other string, with no validation. -/
theorem greet_empty : greet "" = "Hello, !" :=
  rfl

/-- C6: `greet` cannot fail: it is a total function on strings with no error
branch, so for every string `n` the computation of `greet n` succeeds and
returns a string; likewise each of `main`'s three calls succeeds. -/
theorem greet_total (n : String) :
    (∃ g : String, greet n = g) ∧ (∃ out : List String, main_run [] = out) :=
  ⟨⟨greet n, rfl⟩, ⟨main_run [], rfl⟩⟩

/-- C7: for every string `name`, `greet name` begins with the character `'H'`
of the fixed prefix and ends with the character `'!'`; in particular its first
and last characters are not whitespace. -/
theorem greet_no_outer_whitespace (n : String) :
    (greet n).data.head? = some 'H' ∧
    (greet n).data.getLast? = some '!' ∧
    ¬ 'H'.isWhitespace ∧ ¬ '!'.isWhitespace := by
  refine ⟨?_, ?_, by decide, by decide⟩
  · rw [greet_data]
    rfl
  · rw [greet_data]
    show (('H' :: 'e' :: 'l' :: 'l' :: 'o' :: ',' :: ' ' :: n.data) ++ ['!']).getLast? = some '!'
    exact List.getLast?_concat _

/-- C8: the whole program terminates: `main`, started from any output state,
completes in one linear pass, appending exactly the three greeting lines and
doing nothing else.  (`main_run` is a total Lean function, so every invocation
terminates by construction.) -/
theorem main_terminates (st : List String) :
    main_run st = st ++ ["Hello, World!", "Hello, Claude!", "Hello, GitHub Actions!"] := by
  show (st ++ ["Hello, World!"] ++ ["Hello, Claude!"] ++ ["Hello, GitHub Actions!"]) = _
  simp

/-- C9: the input is recoverable from `greet`'s output — dropping the first 7
characters and the last 1 character of `greet n` yields `n` back — hence
`greet` is injective: distinct inputs give distinct greetings. -/
theorem greet_roundtrip_inj :
    (∀ n : String, ((greet n).data.drop 7).dropLast = n.data) ∧
    (∀ n₁ n₂ : String, n₁ ≠ n₂ → greet n₁ ≠ greet n₂) := by
  have hrt : ∀ n : String, ((greet n).data.drop 7).dropLast = n.data := by
    intro n
    rw [greet_data]
    exact List.dropLast_concat
  refine ⟨hrt, ?_⟩
  intro n₁ n₂ hne hg
  apply hne
  have : ((greet n₁).data.drop 7).dropLast = ((greet n₂).data.drop 7).dropLast := by
    rw [hg]
  rw [hrt n₁, hrt n₂] at this
  exact String.ext this

/-- Witness for C9 at concrete inputs `"Ada"` and `"Bob"`. -/
theorem greet_roundtrip_inj_witness :
    ("Ada" : String) ≠ "Bob" ∧ greet "Ada" ≠ greet "Bob" :=
  ⟨by decide, greet_roundtrip_inj.2 "Ada" "Bob" (by decide)⟩

/-- C10: for every string `n`, the length of `greet n` is the length of `n`
plus 8 (seven characters of `"Hello, "` plus one character `'!'`). -/
theorem greet_length (n : String) : (greet n).length = n.length + 8 := by
  show (greet n).data.length = n.data.length + 8
  rw [greet_data]
  simp
